import Mathlib

/-!
Verification of the app-builder-backend channel / recording resolvers.

Shallow embedding of `graph/schema.resolvers.go` and the cloud-recording
utilities (`Recorder.Acquire`, `Recorder.Start`, `Stop`, `FirstN`).
Go strings are Lean `String`s; `sql.NullString` / `sql.NullInt32` are
records with a `valid` flag; fallible collaborators (UUID generation,
credential generation, the HTTP recording service, SQL execution) are
passed in as explicit environment values; every outbound effect (store
query, store write, HTTP request to the recording service) is recorded
in an event trace so that claims about which collaborators were or were
not contacted can be stated.
-/

/-- Model of Go `sql.NullString`. -/
structure NullString where
  string : String
  valid : Bool
deriving DecidableEq, Repr

/-- Model of Go `sql.NullInt32` (the 32-bit payload carried as `Int`). -/
structure NullInt32 where
  int32 : Int
  valid : Bool
deriving DecidableEq, Repr

/-- The channel row used by the resolvers (`pkg/video_conferencing/models.Channel`):
id, title, channel_name, channel_secret, host_passphrase, viewer_passphrase,
dtmf, recording_uid, recording_rid, recording_sid. -/
structure Channel where
  id : Int
  title : String
  channelName : String
  channelSecret : String
  hostPassphrase : String
  viewerPassphrase : String
  dtmf : String
  recordingUID : NullInt32
  recordingRID : NullString
  recordingSID : NullString
deriving DecidableEq, Repr

/-- The authenticated user as used by `StartRecordingSession` (only the
display name is read). -/
structure User where
  name : String
deriving DecidableEq, Repr

/-- PSTN dial-in info (`model.Pstn`). -/
structure Pstn where
  number : String
  dtmf : String
deriving DecidableEq, Repr

/-- `model.Passphrase`: the host field is a nullable pointer in Go. -/
structure Passphrase where
  host : Option String
  view : String
deriving DecidableEq, Repr

/-- `model.ShareResponse`. -/
structure ShareResponse where
  passphrase : Passphrase
  title : String
  channel : String
  pstn : Option Pstn
deriving DecidableEq, Repr

/-- `model.Session` returned by `JoinChannel`. -/
structure Session where
  title : String
  channel : String
  isHost : Bool
  mainUser : String
  screenShare : String
  secret : String
deriving DecidableEq, Repr

/-- Join credential produced by `utils.GenerateUserCredentials`:
a numeric participant id and a signed rtc token. -/
structure Creds where
  uid : Int
  rtc : String
deriving DecidableEq, Repr

deriving instance DecidableEq for Except

/-- Outcome of a Go function call: a value, an error (by its message), or a
runtime panic (nil-pointer dereference). -/
inductive GoResult (α : Type) where
  | ok (val : α)
  | err (msg : String)
  | panicked
deriving DecidableEq, Repr

/-- One outbound effect of a resolver: a store query by passphrase key, a
store insert, the single store write of the recording triple, or one of the
three HTTP requests to the external cloud-recording service.  The HTTP
events carry what the built request actually contains: the body cname and
uid string for acquire/start/stop, the resource id in the start / stop URL
and the session id in the stop URL. -/
inductive Event where
  | dbGet (key : String)
  | dbInsert (row : Channel)
  | dbUpdateRecording (id : Int) (uid : Int) (sid : String) (rid : String)
  | httpAcquire (bodyCname : String) (bodyUid : String)
  | httpStart (bodyCname : String) (bodyUid : String) (urlRid : String) (titlePrefix : String)
  | httpStop (urlRid : String) (urlSid : String) (bodyCname : String) (bodyUid : String)
deriving DecidableEq, Repr

/-- Result, event trace and debug-log lines of one resolver call. -/
structure Outcome (α : Type) where
  result : GoResult α
  events : List Event
  logs : List String
deriving DecidableEq, Repr

/-! ## Go-level string and integer primitives -/

/-- Character class of the regex `[^a-zA-Z0-9]+` complement: true on the
characters the regex does NOT delete. -/
def isGoAlnum (c : Char) : Bool :=
  ('a' ≤ c && c ≤ 'z') || ('A' ≤ c && c ≤ 'Z') || ('0' ≤ c && c ≤ '9')

/-- `reg.ReplaceAllString(title, "")` with `reg = [^a-zA-Z0-9]+`: every
maximal run of non-alphanumeric characters is replaced by the empty string,
i.e. all non-alphanumeric characters are deleted. -/
def regexStripNonAlnum (s : String) : String :=
  String.mk (s.data.filter isGoAlnum)

/-- Core loop of `utils.FirstN` over the rune sequence:
`i := 0; for j := range s { if i == n { return s[:j] }; i++ }; return s`. -/
def goFirstN : List Char → Nat → List Char
  | _, 0 => []
  | [], _ + 1 => []
  | c :: rest, n + 1 => c :: goFirstN rest n

/-- `utils.FirstN`: the first `n` runes of `s`. -/
def FirstN (s : String) (n : Nat) : String :=
  String.mk (goFirstN s.data n)

/-- The sanitized recording title built in `StartRecordingSession`:
`utils.FirstN(reg.ReplaceAllString(title, ""), 100)`. -/
def finalTitleOf (title : String) : String :=
  FirstN (regexStripNonAlnum title) 100

/-- `strings.ReplaceAll(s, "-", "")`. -/
def removeDashes (s : String) : String :=
  String.mk (s.data.filter (fun c => c ≠ '-'))

/-- Go `int32(n)` conversion from `int`: two's-complement truncation. -/
def toInt32 (n : Int) : Int :=
  (n + 2 ^ 31) % 2 ^ 32 - 2 ^ 31

/-- Go `string(i)` on an integer: the one-rune string of code point `i` when
`i` is a valid Unicode scalar value, and `"�"` otherwise.  This is the
conversion the recording client applies to the numeric uid when it builds
the acquire / start / stop request bodies. -/
def goStringOfInt (n : Int) : String :=
  if (0 ≤ n ∧ n < 0xD800) ∨ (0xE000 ≤ n ∧ n < 0x110000) then
    String.mk [Char.ofNat n.toNat]
  else
    String.mk [Char.ofNat 0xFFFD]

/-- Go map indexing on the decoded JSON response `map[string]string`:
the zero value `""` when the key is absent. -/
def mapGetD (body : List (String × String)) (k : String) : String :=
  match body.find? (fun p => p.1 = k) with
  | some p => p.2
  | none => ""

/-! ## Collaborator environments -/

/-- Process configuration (`viper` keys) plus the request-context user the
OAuth middleware would resolve (`none` when the context has no valid user). -/
structure Config where
  enableOauth : Bool
  ctxUser : Option User
  pstnNumber : String
deriving DecidableEq, Repr

/-- Environment of one recording-orchestration request: the result of
`GenerateUserCredentials` for the recording bot, the three HTTP exchanges
with the cloud-recording service (error message on transport failure, the
decoded `map[string]string` response body on success — the code never
inspects the HTTP status, so a non-success response is just a body without
the expected key), and whether the SQL UPDATE of the recording triple
succeeds. -/
structure RecordEnv where
  recCreds : Except String Creds
  acquireResp : Except String (List (String × String))
  startResp : Except String (List (String × String))
  updateOk : Bool
  stopResp : Except String (List (String × String))
deriving Repr

/-- The store's `Get ... WHERE host_passphrase = $1 OR viewer_passphrase = $1`
over a concrete table of rows: the first row either of whose passphrase
columns equals the key. -/
def findChannel (rows : List Channel) (key : String) : Option Channel :=
  rows.find? (fun c => c.hostPassphrase = key || c.viewerPassphrase = key)

/-- Effect of the resolvers' single recording UPDATE on one row:
`UPDATE channels SET (recording_uid, recording_sid, recording_rid) = (...)
WHERE id = :id` — all three columns written together, valid flags set. -/
def recUpd (id : Int) (uid : Int) (sid : String) (rid : String) (c : Channel) : Channel :=
  if c.id = id then
    { c with recordingUID := ⟨uid, true⟩, recordingSID := ⟨sid, true⟩,
             recordingRID := ⟨rid, true⟩ }
  else c

/-- The recording UPDATE applied to the whole table. -/
def applyRecordingUpdate (rows : List Channel) (id : Int) (uid : Int)
    (sid : String) (rid : String) : List Channel :=
  rows.map (recUpd id uid sid rid)

/-! ## The recording client (`utils.Recorder`, `utils.Stop`) -/

/-- `utils.Recorder`: channel name, join token, numeric uid and the two
identifiers returned by the external service. -/
structure Recorder where
  channel : String
  token : String
  uid : Int
  rid : String
  sid : String
deriving DecidableEq, Repr

/-- A fresh `&utils.Recorder{}` with only the channel set, as built by
`StartRecordingSession`. -/
def Recorder.forChannel (channel : String) : Recorder :=
  ⟨channel, "", 0, "", ""⟩

/-- `Recorder.Acquire`: generates bot credentials, stores `int32(creds.UID)`
and the rtc token on the recorder, posts the acquire request (body uid is
Go `string(rec.UID)`), and stores `result["resourceId"]` from the decoded
response.  The HTTP status is never checked and a missing `resourceId` key
leaves `rid = ""` without an error. -/
def Recorder.Acquire (env : RecordEnv) (rec : Recorder) :
    Except String Recorder × List Event :=
  match env.recCreds with
  | .error e => (.error e, [])
  | .ok creds =>
    let r := { rec with uid := toInt32 creds.uid, token := creds.rtc }
    let ev := Event.httpAcquire r.channel (goStringOfInt r.uid)
    match env.acquireResp with
    | .error e => (.error e, [ev])
    | .ok body => (.ok { r with rid := mapGetD body "resourceId" }, [ev])

/-- `Recorder.Start`: posts the start request to
`.../resourceid/<rid>/mode/mix/start` and stores `result["sid"]` from the
decoded response.  (Time formatting and JSON marshalling are modelled as
succeeding; their failure would only add another error path never reached
in the claims below.  The status of the response is again never checked.) -/
def Recorder.Start (env : RecordEnv) (rec : Recorder)
    (channelTitle : String) (secret : Option String) :
    Except String Recorder × List Event :=
  let _ := secret
  let ev := Event.httpStart rec.channel (goStringOfInt rec.uid) rec.rid channelTitle
  match env.startResp with
  | .error e => (.error e, [ev])
  | .ok body => (.ok { rec with sid := mapGetD body "sid" }, [ev])

/-- `utils.Stop`: posts the stop request to
`.../resourceid/<rid>/sid/<sid>/mode/mix/stop` with body cname `channel`
and body uid Go `string(uid)`; the response is only logged. -/
def Stop (env : RecordEnv) (channel : String) (uid : Int) (rid : String)
    (sid : String) : Except String Unit × List Event :=
  let ev := Event.httpStop rid sid channel (goStringOfInt uid)
  match env.stopResp with
  | .error e => (.error e, [ev])
  | .ok _ => (.ok (), [ev])

/-! ## The resolvers (`graph/schema.resolvers.go`) -/

/-- `StartRecordingSession(ctx, passphrase, secret)`. -/
def StartRecordingSession (cfg : Config) (db : String → Option Channel)
    (env : RecordEnv) (passphrase : String) (secret : Option String) :
    Outcome String :=
  let authUser : Option User := if cfg.enableOauth then cfg.ctxUser else none
  if passphrase = "" then
    ⟨.err "Passphrase cannot be empty", [], []⟩
  else
    match db passphrase with
    | none => ⟨.err "Invalid URL", [.dbGet passphrase], ["Invalid Passphrase"]⟩
    | some channelData =>
      if passphrase = channelData.hostPassphrase then
        let title :=
          match authUser with
          | none => channelData.title
          | some u => u.name
        let finalTitle := finalTitleOf title
        let recorder := Recorder.forChannel channelData.channelName
        match Recorder.Acquire env recorder with
        | (.error _, evs) =>
          ⟨.err "Internal Server Error", .dbGet passphrase :: evs, []⟩
        | (.ok rec1, evs) =>
          match Recorder.Start env rec1 finalTitle secret with
          | (.error _, evs2) =>
            ⟨.err "Internal Server Error", .dbGet passphrase :: evs ++ evs2, []⟩
          | (.ok rec2, evs2) =>
            let updEv := Event.dbUpdateRecording channelData.id rec2.uid rec2.sid rec2.rid
            if env.updateOk then
              ⟨.ok "success", .dbGet passphrase :: evs ++ evs2 ++ [updEv], []⟩
            else
              ⟨.err "Internal Server Error", .dbGet passphrase :: evs ++ evs2 ++ [updEv], []⟩
      else if passphrase = channelData.viewerPassphrase then
        ⟨.err "Unauthorised to record channel", [.dbGet passphrase],
          ["Unauthorized to record channel"]⟩
      else
        ⟨.err "Invalid URL", [.dbGet passphrase],
          ["Invalid Passphrase; Interal Server Error"]⟩

/-- `StopRecordingSession(ctx, passphrase)`. -/
def StopRecordingSession (db : String → Option Channel) (env : RecordEnv)
    (passphrase : String) : Outcome String :=
  if passphrase = "" then
    ⟨.err "Passphrase cannot be empty", [], []⟩
  else
    match db passphrase with
    | none => ⟨.err "Invalid URL", [.dbGet passphrase], ["Invalid Passphrase"]⟩
    | some channelData =>
      if passphrase = channelData.hostPassphrase then
        if !channelData.recordingRID.valid || !channelData.recordingSID.valid
            || !channelData.recordingUID.valid then
          ⟨.err "Recording not started", [.dbGet passphrase],
            ["RID or SID or UID not in DB"]⟩
        else
          match Stop env channelData.channelName channelData.recordingUID.int32
              channelData.recordingRID.string channelData.recordingSID.string with
          | (.error _, evs) =>
            ⟨.err "Internal Server Error", .dbGet passphrase :: evs, []⟩
          | (.ok _, evs) =>
            ⟨.ok "success", .dbGet passphrase :: evs, []⟩
      else if passphrase = channelData.viewerPassphrase then
        ⟨.err "Unauthorised to record channel", [.dbGet passphrase],
          ["Unauthorized to record channel"]⟩
      else
        ⟨.err "Invalid URL", [.dbGet passphrase],
          ["Invalid Passphrase; Interal Server Error"]⟩

/-- `JoinChannel(ctx, passphrase)`: the two credential results are the
outcomes of the two `GenerateUserCredentials` calls (main, screen-share). -/
def JoinChannel (db : String → Option Channel)
    (mainCreds : Except String Creds) (shareCreds : Except String Creds)
    (passphrase : String) : Outcome Session :=
  if passphrase = "" then
    ⟨.err "Passphrase cannot be empty", [], []⟩
  else
    match db passphrase with
    | none => ⟨.err "Invalid URL", [.dbGet passphrase], ["Invalid Passphrase"]⟩
    | some channelData =>
      if passphrase = channelData.hostPassphrase ∨
          passphrase = channelData.viewerPassphrase then
        match mainCreds with
        | .error _ => ⟨.err "Internal Server Error", [.dbGet passphrase], []⟩
        | .ok mainUser =>
          match shareCreds with
          | .error _ => ⟨.err "Internal Server Error", [.dbGet passphrase], []⟩
          | .ok screenShare =>
            ⟨.ok { title := channelData.title,
                   channel := channelData.channelName,
                   isHost := passphrase = channelData.hostPassphrase,
                   mainUser := mainUser.rtc,
                   screenShare := screenShare.rtc,
                   secret := channelData.channelSecret },
              [.dbGet passphrase], []⟩
      else
        ⟨.err "Invalid URL", [.dbGet passphrase],
          ["Invalid Passphrase; Interal Server Error"]⟩

/-- `Share(ctx, passphrase)`.  The SQL here quotes its placeholders
(`WHERE host_passphrase = '$1' OR viewer_passphrase = '$1'`), so the key the
store is asked to compare against is the literal string `$1`, not the
caller's passphrase. -/
def Share (cfg : Config) (db : String → Option Channel) (passphrase : String) :
    Outcome ShareResponse :=
  if passphrase = "" then
    ⟨.err "Passphrase cannot be empty", [], []⟩
  else
    match db "$1" with
    | none => ⟨.err "Invalid URL", [.dbGet "$1"], ["Invalid Passphrase"]⟩
    | some channelData =>
      if passphrase = channelData.hostPassphrase ∨
          passphrase = channelData.viewerPassphrase then
        let hostPassphrase : Option String :=
          if passphrase = channelData.hostPassphrase then
            some channelData.hostPassphrase
          else none
        let pstnResult : Option Pstn :=
          if channelData.dtmf ≠ "" then
            some ⟨cfg.pstnNumber, channelData.dtmf⟩
          else none
        ⟨.ok { passphrase := ⟨hostPassphrase, channelData.viewerPassphrase⟩,
               channel := channelData.channelName,
               title := channelData.title,
               pstn := pstnResult },
          [.dbGet "$1"], []⟩
      else
        ⟨.err "Invalid URL", [.dbGet "$1"],
          ["Invalid Passphrase; Interal Server Error"]⟩

/-- `CreateChannel(ctx, title, enablePstn)`.  `gen` is the stream of
`utils.GenerateUUID` results (the call at index `k` is the next draw) and
`dtmfGen` the `utils.GenerateDTMF` result.

Modelled from the spec: `utils.GenerateUUID` and `utils.GenerateDTMF` are
absent from the sources; per the spec they produce fresh unique opaque
identifiers respectively a PSTN dial-tone code, so they are modelled as
environment-supplied results and claims about their freshness take the
spec's uniqueness guarantee as a hypothesis on `gen`.

Note the Go code checks `enablePstn != nil` only for logging and then
dereferences `*enablePstn` unconditionally, so a `none` argument panics. -/
def CreateChannel (cfg : Config) (gen : Nat → Except String String) (k : Nat)
    (dtmfGen : Except String String) (insertOk : Bool)
    (title : String) (enablePstn : Option Bool) :
    Outcome ShareResponse × Nat :=
  if cfg.enableOauth && cfg.ctxUser.isNone then
    (⟨.err "Invalid Token", [], []⟩, k)
  else
    match gen k with
    | .error _ => (⟨.err "Internal Server Error", [], []⟩, k + 1)
    | .ok hostPhrase =>
      match gen (k + 1) with
      | .error _ => (⟨.err "Internal Server Error", [], []⟩, k + 2)
      | .ok viewPhrase =>
        match gen (k + 2) with
        | .error _ => (⟨.err "Internal Server Error", [], []⟩, k + 3)
        | .ok channelName =>
          let channel := removeDashes channelName
          match gen (k + 3) with
          | .error e => (⟨.err e, [], []⟩, k + 4)
          | .ok secretGen =>
            let secret := removeDashes secretGen
            match dtmfGen with
            | .error _ => (⟨.err "Internal Server Error", [], []⟩, k + 4)
            | .ok dtmfResult =>
              match enablePstn with
              | none => (⟨.panicked, [], []⟩, k + 4)
              | some b =>
                let pstnResponse : Option Pstn :=
                  if b then some ⟨cfg.pstnNumber, dtmfResult⟩ else none
                let newChannel : Channel :=
                  { id := 0, title := title, channelName := channel,
                    channelSecret := secret, hostPassphrase := hostPhrase,
                    viewerPassphrase := viewPhrase, dtmf := dtmfResult,
                    recordingUID := ⟨0, false⟩, recordingRID := ⟨"", false⟩,
                    recordingSID := ⟨"", false⟩ }
                if insertOk then
                  (⟨.ok { passphrase := ⟨some hostPhrase, viewPhrase⟩,
                          title := title, channel := channel,
                          pstn := pstnResponse },
                     [.dbInsert newChannel], []⟩, k + 4)
                else
                  (⟨.err "Internal Server Error", [.dbInsert newChannel], []⟩, k + 4)

/-! ## Concrete fixtures used to instantiate the theorems -/

/-- A deterministic identifier stream standing in for `utils.GenerateUUID`
in concrete runs: draw `n` is the string of `n + 1` letters `a` (distinct
draws are distinct, and no draw is empty). -/
def wGen : Nat → Except String String :=
  fun n => .ok (String.mk (List.replicate (n + 1) 'a'))

/-- Config with OAuth disabled and a concrete PSTN number. -/
def cfgW : Config := ⟨false, none, "+15550100"⟩

/-- A recording environment in which everything succeeds: credentials with
uid 65, acquire returns resource id R1, start returns session id S1. -/
def envOk : RecordEnv :=
  ⟨.ok ⟨65, "tok"⟩, .ok [("resourceId", "R1")], .ok [("sid", "S1")], true, .ok []⟩

/-- A recording environment whose acquire HTTP exchange succeeds but whose
decoded body has no `resourceId` key (a non-success or malformed upstream
response). -/
def envNoRid : RecordEnv :=
  ⟨.ok ⟨65, "tok"⟩, .ok [], .ok [("sid", "S1")], true, .ok []⟩

/-- A recording environment whose acquire call fails at the transport. -/
def envNetFail : RecordEnv :=
  ⟨.ok ⟨65, "tok"⟩, .error "connection refused", .ok [("sid", "S1")], true, .ok []⟩

/-- A recording environment whose credential generation fails. -/
def envCredFail : RecordEnv :=
  ⟨.error "rand failed", .ok [("resourceId", "R1")], .ok [("sid", "S1")], true, .ok []⟩

/-- A channel row with no recording state. -/
def chanIdle : Channel :=
  ⟨7, "T", "chan", "sec", "hp", "vp", "123", ⟨0, false⟩, ⟨"", false⟩, ⟨"", false⟩⟩

/-- A channel row with a fully populated recording triple (uid 65, R1, S1). -/
def chanFull : Channel :=
  ⟨7, "T", "chan", "sec", "hp", "vp", "123", ⟨65, true⟩, ⟨"R1", true⟩, ⟨"S1", true⟩⟩

/-- A channel row with only the session id missing from the triple. -/
def chanNoSid : Channel :=
  ⟨7, "T", "chan", "sec", "hp", "vp", "123", ⟨65, true⟩, ⟨"R1", true⟩, ⟨"S1", false⟩⟩

/-- A row matching neither passphrase column, as returned by a store that
violates the lookup contract. -/
def mismatchChan : Channel :=
  ⟨1, "T", "chan", "sec", "h", "v", "", ⟨0, false⟩, ⟨"", false⟩, ⟨"", false⟩⟩

/-- A store lookup that always returns the contract-violating row. -/
def dbMismatch : String → Option Channel := fun _ => some mismatchChan

/-- A store lookup that never finds a row. -/
def dbNone : String → Option Channel := fun _ => none

/-- The row `CreateChannel cfgW wGen 0 (.ok "123456") true "T" (some false)`
inserts: passphrases a / aa, channel name aaa, secret aaaa, dtmf 123456. -/
def createdChan : Channel :=
  ⟨0, "T", "aaa", "aaaa", "a", "aa", "123456", ⟨0, false⟩, ⟨"", false⟩, ⟨"", false⟩⟩

/-- The row a second `CreateChannel` run (draws 4..7 of `wGen`) inserts. -/
def createdChan2 : Channel :=
  ⟨0, "T", "aaaaaaa", "aaaaaaaa", "aaaaa", "aaaaaa", "123456",
   ⟨0, false⟩, ⟨"", false⟩, ⟨"", false⟩⟩

/-- Share response of the first concrete `CreateChannel` run with PSTN on. -/
def wResp1 : ShareResponse :=
  ⟨⟨some "a", "aa"⟩, "T", "aaa", some ⟨"+15550100", "123456"⟩⟩

/-- Share response of the second concrete `CreateChannel` run with PSTN on. -/
def wResp2 : ShareResponse :=
  ⟨⟨some "aaaaa", "aaaaaa"⟩, "T", "aaaaaaa", some ⟨"+15550100", "123456"⟩⟩

/-! ## Supporting lemmas -/

theorem goFirstN_eq_take (l : List Char) (n : Nat) : goFirstN l n = l.take n := by
  induction l generalizing n with
  | nil => cases n <;> rfl
  | cons c rest ih =>
    cases n with
    | zero => rfl
    | succ m => simp [goFirstN, List.take, ih]

theorem finalTitleOf_eq_filter_take (s : String) :
    finalTitleOf s = String.mk ((s.data.filter isGoAlnum).take 100) := by
  simp [finalTitleOf, FirstN, regexStripNonAlnum, goFirstN_eq_take]

theorem length_finalTitleOf (s : String) :
    (finalTitleOf s).length = min 100 (s.data.filter isGoAlnum).length := by
  rw [finalTitleOf_eq_filter_take]
  simp [String.length]

theorem toInt32_of_lt (n : Int) (h0 : 0 ≤ n) (h31 : n < 2 ^ 31) : toInt32 n = n := by
  unfold toInt32
  rw [Int.emod_eq_of_lt (by omega) (by omega)]
  omega

theorem hostPassphrase_recUpd (id uid : Int) (sid rid : String) (c : Channel) :
    (recUpd id uid sid rid c).hostPassphrase = c.hostPassphrase := by
  unfold recUpd; split <;> rfl

theorem viewerPassphrase_recUpd (id uid : Int) (sid rid : String) (c : Channel) :
    (recUpd id uid sid rid c).viewerPassphrase = c.viewerPassphrase := by
  unfold recUpd; split <;> rfl

theorem findChannel_applyRecordingUpdate (rows : List Channel) (id uid : Int)
    (sid rid : String) (key : String) :
    findChannel (applyRecordingUpdate rows id uid sid rid) key =
      (findChannel rows key).map (recUpd id uid sid rid) := by
  unfold findChannel applyRecordingUpdate
  induction rows with
  | nil => rfl
  | cons c rest ih =>
    simp only [List.map_cons, List.find?]
    rw [hostPassphrase_recUpd, viewerPassphrase_recUpd]
    by_cases h : (c.hostPassphrase = key || c.viewerPassphrase = key) = true
    · simp [h]
    · simp only [Bool.not_eq_true] at h
      simp [h, ih]

theorem string_mk_length (l : List Char) : (String.mk l).length = l.length := rfl

theorem wGen_fresh :
    ∀ m n a b, wGen m = Except.ok a → wGen n = Except.ok b → m ≠ n → a ≠ b := by
  intro m n a b hm hn hmn heq
  unfold wGen at hm hn
  injection hm with hm
  injection hn with hn
  apply hmn
  have hlen := congrArg String.length heq
  rw [← hm, ← hn] at hlen
  simp only [string_mk_length, List.length_replicate] at hlen
  omega

/-! ## Claim theorems -/

/-- C5: the sanitized recording title equals the input with every character
outside [A-Za-z0-9] removed and the result truncated to the first 100
characters; in particular "My Channel! #1" sanitizes to "MyChannel1", the
result never exceeds 100 characters, and an input with 100 or more
alphanumeric characters yields exactly 100 characters. -/
theorem sanitized_title_strips_and_truncates :
    finalTitleOf "My Channel! #1" = "MyChannel1" ∧
    (∀ s : String, finalTitleOf s = String.mk ((s.data.filter isGoAlnum).take 100)) ∧
    (∀ s : String, (finalTitleOf s).length ≤ 100) ∧
    (∀ s : String, 100 ≤ (s.data.filter isGoAlnum).length →
      (finalTitleOf s).length = 100) := by
  refine ⟨by decide, finalTitleOf_eq_filter_take, ?_, ?_⟩
  · intro s
    rw [length_finalTitleOf]
    omega
  · intro s h
    rw [length_finalTitleOf]
    omega

set_option maxRecDepth 4000 in
theorem sanitized_title_strips_and_truncates_witness :
    100 ≤ ((String.mk (List.replicate 150 'x')).data.filter isGoAlnum).length ∧
    (finalTitleOf (String.mk (List.replicate 150 'x'))).length = 100 :=
  ⟨by decide, sanitized_title_strips_and_truncates.2.2.2 _ (by decide)⟩

/-- C7: calling JoinChannel, Share, StartRecordingSession or
StopRecordingSession with an empty passphrase returns the invalid-input
error "Passphrase cannot be empty" and performs no store lookup (the event
trace is empty). -/
theorem empty_passphrase_rejected_without_lookup
    (cfg cfg2 : Config) (db1 db2 db3 db4 : String → Option Channel)
    (env1 env2 : RecordEnv) (mc sc : Except String Creds)
    (secret : Option String) :
    JoinChannel db1 mc sc "" = ⟨.err "Passphrase cannot be empty", [], []⟩ ∧
    Share cfg db2 "" = ⟨.err "Passphrase cannot be empty", [], []⟩ ∧
    StartRecordingSession cfg2 db3 env1 "" secret =
      ⟨.err "Passphrase cannot be empty", [], []⟩ ∧
    StopRecordingSession db4 env2 "" = ⟨.err "Passphrase cannot be empty", [], []⟩ :=
  ⟨rfl, rfl, rfl, rfl⟩

/-- C1: for a Host-authorized StopRecordingSession, whenever at least one of
resource id, session id, numeric id is absent from the channel row (any of
the 7 non-full valid-flag combinations), the call fails with "Recording not
started" and the external stop endpoint is not contacted (the only event is
the store lookup); when all three are present, the stop endpoint is called
with the stored identifiers. -/
theorem stop_requires_full_recording_triple
    (db : String → Option Channel) (env : RecordEnv) (p : String) (c : Channel)
    (hp : p ≠ "") (hdb : db p = some c) (hhost : p = c.hostPassphrase) :
    ((c.recordingRID.valid && c.recordingSID.valid && c.recordingUID.valid) = false →
      StopRecordingSession db env p =
        ⟨.err "Recording not started", [.dbGet p], ["RID or SID or UID not in DB"]⟩) ∧
    ((c.recordingRID.valid && c.recordingSID.valid && c.recordingUID.valid) = true →
      (StopRecordingSession db env p).events =
        [.dbGet p, .httpStop c.recordingRID.string c.recordingSID.string
          c.channelName (goStringOfInt c.recordingUID.int32)]) := by
  obtain ⟨cid, ct, ccn, ccs, chp, cvp, cd, ⟨uid, uv⟩, ⟨rid, rv⟩, ⟨sid, sv⟩⟩ := c
  subst hhost
  constructor
  · intro hmiss
    cases rv <;> cases sv <;> cases uv <;>
      simp_all [StopRecordingSession, hdb]
  · intro hfull
    rcases hs : env.stopResp with e | b <;>
      cases rv <;> cases sv <;> cases uv <;>
        simp_all [StopRecordingSession, Stop, hdb]

theorem stop_requires_full_recording_triple_witness :
    ("hp" : String) ≠ "" ∧
    findChannel [chanNoSid] "hp" = some chanNoSid ∧
    ("hp" : String) = chanNoSid.hostPassphrase ∧
    StopRecordingSession (findChannel [chanNoSid]) envOk "hp" =
      ⟨.err "Recording not started", [.dbGet "hp"], ["RID or SID or UID not in DB"]⟩ ∧
    (StopRecordingSession (findChannel [chanFull]) envOk "hp").events =
      [.dbGet "hp", .httpStop chanFull.recordingRID.string chanFull.recordingSID.string
        chanFull.channelName (goStringOfInt chanFull.recordingUID.int32)] := by
  refine ⟨by decide, by decide, by decide, ?_, ?_⟩
  · exact (stop_requires_full_recording_triple (findChannel [chanNoSid]) envOk "hp"
      chanNoSid (by decide) (by decide) (by decide)).1 (by decide)
  · exact (stop_requires_full_recording_triple (findChannel [chanFull]) envOk "hp"
      chanFull (by decide) (by decide) (by decide)).2 (by decide)

/-- C2: a caller whose passphrase resolves to the Viewer role gets
"Unauthorised to record channel" from both StartRecordingSession and
StopRecordingSession, and no external recording-service call (acquire,
start or stop) is made: the only event of each call is the store lookup. -/
theorem viewer_recording_unauthorized
    (cfg : Config) (db : String → Option Channel) (envS envT : RecordEnv)
    (p : String) (c : Channel) (secret : Option String)
    (hp : p ≠ "") (hdb : db p = some c)
    (hnh : p ≠ c.hostPassphrase) (hv : p = c.viewerPassphrase) :
    StartRecordingSession cfg db envS p secret =
      ⟨.err "Unauthorised to record channel", [.dbGet p],
        ["Unauthorized to record channel"]⟩ ∧
    StopRecordingSession db envT p =
      ⟨.err "Unauthorised to record channel", [.dbGet p],
        ["Unauthorized to record channel"]⟩ := by
  subst hv
  constructor <;>
    simp [StartRecordingSession, StopRecordingSession, hp, hdb, hnh]

theorem viewer_recording_unauthorized_witness :
    ("vp" : String) ≠ "" ∧
    findChannel [chanIdle] "vp" = some chanIdle ∧
    ("vp" : String) ≠ chanIdle.hostPassphrase ∧
    ("vp" : String) = chanIdle.viewerPassphrase ∧
    StartRecordingSession cfgW (findChannel [chanIdle]) envOk "vp" none =
      ⟨.err "Unauthorised to record channel", [.dbGet "vp"],
        ["Unauthorized to record channel"]⟩ ∧
    StopRecordingSession (findChannel [chanIdle]) envOk "vp" =
      ⟨.err "Unauthorised to record channel", [.dbGet "vp"],
        ["Unauthorized to record channel"]⟩ := by
  refine ⟨by decide, by decide, by decide, by decide, ?_, ?_⟩
  · exact (viewer_recording_unauthorized cfgW (findChannel [chanIdle]) envOk envOk
      "vp" chanIdle none (by decide) (by decide) (by decide) (by decide)).1
  · exact (viewer_recording_unauthorized cfgW (findChannel [chanIdle]) envOk envOk
      "vp" chanIdle none (by decide) (by decide) (by decide) (by decide)).2

/-- C8 counterexample: a lookup that returns a row matching neither
passphrase column produces exactly the same caller-visible error,
"Invalid URL", as a lookup that finds no row at all — the two failure modes
are not distinct to the caller. -/
theorem inconsistent_row_error_equals_not_found :
    (StartRecordingSession cfgW dbMismatch envOk "x" none).result =
      (StartRecordingSession cfgW dbNone envOk "x" none).result ∧
    (StartRecordingSession cfgW dbMismatch envOk "x" none).result = .err "Invalid URL" ∧
    (JoinChannel dbMismatch (.ok ⟨1, "t"⟩) (.ok ⟨2, "u"⟩) "x").result =
      (JoinChannel dbNone (.ok ⟨1, "t"⟩) (.ok ⟨2, "u"⟩) "x").result ∧
    (JoinChannel dbMismatch (.ok ⟨1, "t"⟩) (.ok ⟨2, "u"⟩) "x").result = .err "Invalid URL" := by
  decide

/-- C8 (amended): a lookup returning a row whose host and viewer passphrase
both differ from the input fails with the same caller-visible "Invalid URL"
error as the no-row case; the two cases are distinguished only in the debug
log, where the inconsistent row logs "Invalid Passphrase; Interal Server
Error" instead of "Invalid Passphrase". -/
theorem mismatched_row_same_invalid_url
    (cfg : Config) (db dbN : String → Option Channel) (env envN : RecordEnv)
    (mc sc : Except String Creds) (p : String) (c : Channel) (secret : Option String)
    (hp : p ≠ "") (hdb : db p = some c)
    (hnh : p ≠ c.hostPassphrase) (hnv : p ≠ c.viewerPassphrase)
    (hnone : dbN p = none) :
    StartRecordingSession cfg db env p secret =
      ⟨.err "Invalid URL", [.dbGet p], ["Invalid Passphrase; Interal Server Error"]⟩ ∧
    JoinChannel db mc sc p =
      ⟨.err "Invalid URL", [.dbGet p], ["Invalid Passphrase; Interal Server Error"]⟩ ∧
    StartRecordingSession cfg dbN envN p secret =
      ⟨.err "Invalid URL", [.dbGet p], ["Invalid Passphrase"]⟩ ∧
    JoinChannel dbN mc sc p =
      ⟨.err "Invalid URL", [.dbGet p], ["Invalid Passphrase"]⟩ ∧
    (StartRecordingSession cfg db env p secret).result =
      (StartRecordingSession cfg dbN envN p secret).result := by
  refine ⟨?_, ?_, ?_, ?_, ?_⟩ <;>
    simp [StartRecordingSession, JoinChannel, hp, hdb, hnh, hnv, hnone]

theorem mismatched_row_same_invalid_url_witness :
    ("x" : String) ≠ "" ∧
    dbMismatch "x" = some mismatchChan ∧
    ("x" : String) ≠ mismatchChan.hostPassphrase ∧
    ("x" : String) ≠ mismatchChan.viewerPassphrase ∧
    dbNone "x" = none ∧
    StartRecordingSession cfgW dbMismatch envOk "x" none =
      ⟨.err "Invalid URL", [.dbGet "x"], ["Invalid Passphrase; Interal Server Error"]⟩ ∧
    StartRecordingSession cfgW dbNone envOk "x" none =
      ⟨.err "Invalid URL", [.dbGet "x"], ["Invalid Passphrase"]⟩ := by
  have h := mismatched_row_same_invalid_url cfgW dbMismatch dbNone envOk envOk
    (.ok ⟨1, "t"⟩) (.ok ⟨2, "u"⟩) "x" mismatchChan none
    (by decide) (by decide) (by decide) (by decide) (by decide)
  exact ⟨by decide, by decide, by decide, by decide, by decide, h.1, h.2.2.1⟩

/-- C9 failing input: CreateChannel with the optional enablePstn argument
absent (nil).  All generators succeed, yet the call neither returns a
ShareResponse nor an error: it dereferences the nil pointer and panics. -/
theorem create_channel_nil_pstn_panics :
    (CreateChannel cfgW wGen 0 (.ok "123456") true "My Meeting" none).1.result =
      GoResult.panicked ∧
    (∀ r : ShareResponse,
      (CreateChannel cfgW wGen 0 (.ok "123456") true "My Meeting" none).1.result ≠
        GoResult.ok r) ∧
    (∀ m : String,
      (CreateChannel cfgW wGen 0 (.ok "123456") true "My Meeting" none).1.result ≠
        GoResult.err m) := by
  refine ⟨by decide, ?_, ?_⟩ <;> intro x h <;> simp [CreateChannel, cfgW, wGen] at h

/-- C10 failing input: a channel created with enablePstn = false gets a
non-empty DTMF code persisted (first half of the claim holds), but a
subsequent Share with either of that channel's passphrases fails with
"Invalid URL": the Share query quotes its placeholder, so the store is
asked to match the literal string dollar-one instead of the caller's
passphrase and never finds the row. -/
theorem dtmf_persisted_but_share_lookup_never_matches :
    (CreateChannel cfgW wGen 0 (.ok "123456") true "T" (some false)).1 =
      ⟨.ok ⟨⟨some "a", "aa"⟩, "T", "aaa", none⟩, [.dbInsert createdChan], []⟩ ∧
    createdChan.dtmf = "123456" ∧
    createdChan.dtmf ≠ "" ∧
    Share cfgW (findChannel [createdChan]) createdChan.hostPassphrase =
      ⟨.err "Invalid URL", [.dbGet "$1"], ["Invalid Passphrase"]⟩ ∧
    Share cfgW (findChannel [createdChan]) createdChan.viewerPassphrase =
      ⟨.err "Invalid URL", [.dbGet "$1"], ["Invalid Passphrase"]⟩ := by
  decide

/-- C4 counterexample: the acquire HTTP exchange completes but the decoded
body has no resource id (as with a non-success upstream response); Acquire
does not signal an error — it returns ok with an empty resource id. -/
theorem acquire_accepts_missing_resource_id :
    Recorder.Acquire envNoRid (Recorder.forChannel "chan") =
      (.ok ⟨"chan", "tok", 65, "", ""⟩, [.httpAcquire "chan" "A"]) := by
  decide

/-- C4 (amended): Acquire returns an error when credential generation or
the network call fails, and StartRecordingSession persists no recording
state in those cases; but a non-success response or a response without a
resource id is not detected — Acquire succeeds with `rid` set to the
(possibly empty) `resourceId` field of the decoded body. -/
theorem acquire_failure_modes
    (env : RecordEnv) (r : Recorder) :
    (∀ e, env.recCreds = .error e → (Recorder.Acquire env r).1 = .error e) ∧
    (∀ u tok e, env.recCreds = .ok ⟨u, tok⟩ → env.acquireResp = .error e →
      (Recorder.Acquire env r).1 = .error e) ∧
    (∀ u tok body, env.recCreds = .ok ⟨u, tok⟩ → env.acquireResp = .ok body →
      (Recorder.Acquire env r).1 =
        .ok { r with uid := toInt32 u, token := tok, rid := mapGetD body "resourceId" }) ∧
    (∀ cfg db p s e i uid sid rid, env.acquireResp = .error e →
      Event.dbUpdateRecording i uid sid rid ∉ (StartRecordingSession cfg db env p s).events) ∧
    (∀ cfg db p s e i uid sid rid, env.recCreds = .error e →
      Event.dbUpdateRecording i uid sid rid ∉ (StartRecordingSession cfg db env p s).events) := by
  refine ⟨?_, ?_, ?_, ?_, ?_⟩
  · intro e he
    simp [Recorder.Acquire, he]
  · intro u tok e hc ha
    simp [Recorder.Acquire, hc, ha]
  · intro u tok body hc ha
    simp [Recorder.Acquire, hc, ha]
  · intro cfg db p s e i uid sid rid ha
    by_cases hp : p = ""
    · simp [StartRecordingSession, hp]
    · rcases hdb : db p with _ | c
      · simp [StartRecordingSession, hp, hdb]
      · by_cases hh : p = c.hostPassphrase
        · subst hh
          rcases hc : env.recCreds with e1 | creds <;>
            simp [StartRecordingSession, hp, hdb, Recorder.Acquire,
              Recorder.forChannel, hc, ha]
        · by_cases hv : p = c.viewerPassphrase
          · subst hv
            simp [StartRecordingSession, hp, hdb, hh]
          · simp [StartRecordingSession, hp, hdb, hh, hv]
  · intro cfg db p s e i uid sid rid hc
    by_cases hp : p = ""
    · simp [StartRecordingSession, hp]
    · rcases hdb : db p with _ | c
      · simp [StartRecordingSession, hp, hdb]
      · by_cases hh : p = c.hostPassphrase
        · subst hh
          simp [StartRecordingSession, hp, hdb, Recorder.Acquire,
            Recorder.forChannel, hc]
        · by_cases hv : p = c.viewerPassphrase
          · subst hv
            simp [StartRecordingSession, hp, hdb, hh]
          · simp [StartRecordingSession, hp, hdb, hh, hv]

theorem acquire_failure_modes_witness :
    envCredFail.recCreds = .error "rand failed" ∧
    (Recorder.Acquire envCredFail (Recorder.forChannel "chan")).1 = .error "rand failed" ∧
    envNetFail.acquireResp = .error "connection refused" ∧
    (Recorder.Acquire envNetFail (Recorder.forChannel "chan")).1 =
      .error "connection refused" ∧
    Event.dbUpdateRecording 7 65 "S1" "R1" ∉
      (StartRecordingSession cfgW (findChannel [chanIdle]) envNetFail "hp" none).events := by
  refine ⟨by decide, ?_, by decide, ?_, ?_⟩
  · exact (acquire_failure_modes envCredFail (Recorder.forChannel "chan")).1
      "rand failed" (by decide)
  · exact (acquire_failure_modes envNetFail (Recorder.forChannel "chan")).2.1
      65 "tok" "connection refused" (by decide) (by decide)
  · exact (acquire_failure_modes envNetFail (Recorder.forChannel "chan")).2.2.2.1
      cfgW (findChannel [chanIdle]) "hp" none "connection refused" 7 65 "S1" "R1"
      (by decide)

/-- C3 counterexample: with numeric id 65 stored on the channel, the stop
request body carries the one-rune string "A" — Go string(int) conversion of
the uid — not its decimal form "65"; the numeric id is therefore not sent
verbatim to the external stop endpoint. -/
theorem stop_body_uid_is_rune_not_decimal :
    (StopRecordingSession (findChannel [chanFull]) envOk "hp").events =
      [.dbGet "hp", .httpStop "R1" "S1" "chan" (goStringOfInt 65)] ∧
    goStringOfInt 65 = "A" ∧
    toString (65 : Int) = "65" ∧
    goStringOfInt 65 ≠ toString (65 : Int) := by
  refine ⟨by decide, by decide, rfl, by decide⟩

/-- C3 (amended): after a Host's StartRecordingSession succeeds with the
external service returning resource id R1 and session id S1, the single
recording UPDATE writes resource id R1, session id S1 and the non-zero
numeric id together, and the channel row afterwards carries exactly those
three values; a subsequent Host StopRecordingSession issues one stop
request whose URL carries exactly that resource id and session id and whose
body carries the stored numeric id encoded by Go string(int) conversion. -/
theorem host_start_persists_triple_then_stop_sends_ids
    (cfg : Config) (rows : List Channel) (env envStop : RecordEnv)
    (p : String) (c : Channel) (u : Int) (tok : String) (secret : Option String)
    (hp : p ≠ "") (hfind : findChannel rows p = some c)
    (hhost : p = c.hostPassphrase)
    (hcreds : env.recCreds = .ok ⟨u, tok⟩)
    (hu0 : 0 < u) (hu31 : u < 2 ^ 31)
    (hacq : env.acquireResp = .ok [("resourceId", "R1")])
    (hstart : env.startResp = .ok [("sid", "S1")])
    (hupd : env.updateOk = true) :
    (StartRecordingSession cfg (findChannel rows) env p secret).result = .ok "success" ∧
    Event.dbUpdateRecording c.id u "S1" "R1" ∈
      (StartRecordingSession cfg (findChannel rows) env p secret).events ∧
    findChannel (applyRecordingUpdate rows c.id u "S1" "R1") p =
      some { c with recordingUID := ⟨u, true⟩, recordingSID := ⟨"S1", true⟩,
                    recordingRID := ⟨"R1", true⟩ } ∧
    u ≠ 0 ∧
    (StopRecordingSession (findChannel (applyRecordingUpdate rows c.id u "S1" "R1"))
        envStop p).events =
      [.dbGet p, .httpStop "R1" "S1" c.channelName (goStringOfInt u)] := by
  have ht32 : toInt32 u = u := toInt32_of_lt u (le_of_lt hu0) hu31
  have hm1 : mapGetD [("resourceId", "R1")] "resourceId" = "R1" := rfl
  have hm2 : mapGetD [("sid", "S1")] "sid" = "S1" := rfl
  have hfind2 : findChannel (applyRecordingUpdate rows c.id u "S1" "R1") p =
      some { c with recordingUID := ⟨u, true⟩, recordingSID := ⟨"S1", true⟩,
                    recordingRID := ⟨"R1", true⟩ } := by
    rw [findChannel_applyRecordingUpdate, hfind]
    simp [recUpd]
  subst hhost
  refine ⟨?_, ?_, hfind2, by omega, ?_⟩
  · simp [StartRecordingSession, hp, hfind, Recorder.Acquire, Recorder.forChannel,
      Recorder.Start, hcreds, hacq, hstart, hupd, ht32, hm1, hm2]
  · simp [StartRecordingSession, hp, hfind, Recorder.Acquire, Recorder.forChannel,
      Recorder.Start, hcreds, hacq, hstart, hupd, ht32, hm1, hm2]
  · rcases hs : envStop.stopResp with e | b <;>
      simp [StopRecordingSession, Stop, hp, hfind2, hs]

theorem host_start_persists_triple_then_stop_sends_ids_witness :
    ("hp" : String) ≠ "" ∧
    findChannel [chanIdle] "hp" = some chanIdle ∧
    ("hp" : String) = chanIdle.hostPassphrase ∧
    envOk.recCreds = .ok ⟨65, "tok"⟩ ∧
    (0 : Int) < 65 ∧ (65 : Int) < 2 ^ 31 ∧
    envOk.acquireResp = .ok [("resourceId", "R1")] ∧
    envOk.startResp = .ok [("sid", "S1")] ∧
    envOk.updateOk = true ∧
    ((StartRecordingSession cfgW (findChannel [chanIdle]) envOk "hp" none).result =
        .ok "success" ∧
      Event.dbUpdateRecording chanIdle.id 65 "S1" "R1" ∈
        (StartRecordingSession cfgW (findChannel [chanIdle]) envOk "hp" none).events ∧
      findChannel (applyRecordingUpdate [chanIdle] chanIdle.id 65 "S1" "R1") "hp" =
        some { chanIdle with recordingUID := ⟨65, true⟩, recordingSID := ⟨"S1", true⟩,
                             recordingRID := ⟨"R1", true⟩ } ∧
      (65 : Int) ≠ 0 ∧
      (StopRecordingSession
          (findChannel (applyRecordingUpdate [chanIdle] chanIdle.id 65 "S1" "R1"))
          envOk "hp").events =
        [.dbGet "hp", .httpStop "R1" "S1" chanIdle.channelName (goStringOfInt 65)]) := by
  refine ⟨by decide, by decide, by decide, by decide, by decide, by decide,
    by decide, by decide, by decide, ?_⟩
  exact host_start_persists_triple_then_stop_sends_ids cfgW [chanIdle] envOk envOk
    "hp" chanIdle 65 "tok" none (by decide) (by decide) (by decide) (by decide)
    (by decide) (by decide) (by decide) (by decide) (by decide)

theorem createChannel_ok_inv (cfg : Config) (gen : Nat → Except String String)
    (k : Nat) (dg : Except String String) (io : Bool) (t : String) (b : Bool)
    (r : ShareResponse) (evs : List Event) (ls : List String) (k1 : Nat)
    (h : CreateChannel cfg gen k dg io t (some b) = (⟨.ok r, evs, ls⟩, k1)) :
    ∃ hp vp, gen k = .ok hp ∧ gen (k + 1) = .ok vp ∧
      r.passphrase = ⟨some hp, vp⟩ ∧ k1 = k + 4 := by
  unfold CreateChannel at h
  by_cases ho : (cfg.enableOauth && cfg.ctxUser.isNone) = true
  · rw [if_pos ho] at h
    simp at h
  · rw [if_neg ho] at h
    rcases hg0 : gen k with e0 | hp0 <;> rw [hg0] at h
    · simp at h
    rcases hg1 : gen (k + 1) with e1 | vp1 <;> rw [hg1] at h
    · simp at h
    rcases hg2 : gen (k + 2) with e2 | cn2 <;> rw [hg2] at h
    · simp at h
    rcases hg3 : gen (k + 3) with e3 | sg3 <;> rw [hg3] at h
    · simp at h
    rcases hdg : dg with ed | dv <;> rw [hdg] at h
    · simp at h
    cases io
    · simp at h
    · simp only [if_true] at h
      simp at h
      obtain ⟨⟨hr, _, _⟩, hk⟩ := h
      exact ⟨hp0, vp1, rfl, rfl, by rw [← hr], by omega⟩

/-- C6: for two successful CreateChannel runs drawing from the same
identifier stream (the second starting at the index where the first
stopped), under the uniqueness guarantee of the identifier generator the
host and viewer passphrases of each created channel are distinct, and no
passphrase of the first channel collides with any passphrase of the
second. -/
theorem createChannel_passphrases_distinct
    (cfg1 cfg2 : Config) (gen : Nat → Except String String) (k : Nat)
    (d1 d2 : Except String String) (i1 i2 : Bool) (t1 t2 : String) (b1 b2 : Bool)
    (r1 r2 : ShareResponse) (e1 e2 : List Event) (l1 l2 : List String) (k1 k2 : Nat)
    (hFresh : ∀ m n a b, gen m = Except.ok a → gen n = Except.ok b → m ≠ n → a ≠ b)
    (h1 : CreateChannel cfg1 gen k d1 i1 t1 (some b1) = (⟨.ok r1, e1, l1⟩, k1))
    (h2 : CreateChannel cfg2 gen k1 d2 i2 t2 (some b2) = (⟨.ok r2, e2, l2⟩, k2)) :
    r1.passphrase.host ≠ some r1.passphrase.view ∧
    r2.passphrase.host ≠ some r2.passphrase.view ∧
    r1.passphrase.host ≠ r2.passphrase.host ∧
    r1.passphrase.host ≠ some r2.passphrase.view ∧
    r2.passphrase.host ≠ some r1.passphrase.view ∧
    r1.passphrase.view ≠ r2.passphrase.view := by
  obtain ⟨hp1, vp1, hg1h, hg1v, hr1, hk1⟩ :=
    createChannel_ok_inv cfg1 gen k d1 i1 t1 b1 r1 e1 l1 k1 h1
  obtain ⟨hp2, vp2, hg2h, hg2v, hr2, hk2⟩ :=
    createChannel_ok_inv cfg2 gen k1 d2 i2 t2 b2 r2 e2 l2 k2 h2
  subst hk1
  rw [hr1, hr2]
  refine ⟨?_, ?_, ?_, ?_, ?_, ?_⟩ <;> simp only [Option.some.injEq, ne_eq]
  · intro heq
    exact hFresh k (k + 1) hp1 vp1 hg1h hg1v (by omega) heq
  · intro heq
    exact hFresh (k + 4) (k + 4 + 1) hp2 vp2 hg2h hg2v (by omega) heq
  · intro heq
    exact hFresh k (k + 4) hp1 hp2 hg1h hg2h (by omega) heq
  · intro heq
    exact hFresh k (k + 4 + 1) hp1 vp2 hg1h hg2v (by omega) heq
  · intro heq
    exact hFresh (k + 4) (k + 1) hp2 vp1 hg2h hg1v (by omega) heq
  · intro heq
    exact hFresh (k + 1) (k + 4 + 1) vp1 vp2 hg1v hg2v (by omega) heq

theorem createChannel_passphrases_distinct_witness :
    wResp1.passphrase.host ≠ some wResp1.passphrase.view ∧
    wResp2.passphrase.host ≠ some wResp2.passphrase.view ∧
    wResp1.passphrase.host ≠ wResp2.passphrase.host ∧
    wResp1.passphrase.host ≠ some wResp2.passphrase.view ∧
    wResp2.passphrase.host ≠ some wResp1.passphrase.view ∧
    wResp1.passphrase.view ≠ wResp2.passphrase.view :=
  createChannel_passphrases_distinct cfgW cfgW wGen 0 (.ok "123456") (.ok "123456")
    true true "T" "T" true true wResp1 wResp2
    [.dbInsert createdChan] [.dbInsert createdChan2] [] [] 4 8
    wGen_fresh (by decide) (by decide)
